import Mathlib

/-!
Shallow embedding of the churn-prediction pipeline
(`src/ml/linear/complete-churn-system.py`): the data model (tables of mixed
numeric / string / missing cells), the schema validation, the configured
column transformer (median imputation + standardization for numeric columns,
constant-`missing` imputation + drop-first one-hot encoding for categorical
columns, everything else dropped), feature-name bookkeeping, training and
evaluation orchestration over abstract external capabilities (SMOTE, the
random-forest classifier), and the save / load / predict surface.

Machine reals are modelled as `Rat`; the only irrational operation the source
performs (the square root inside the standard deviation) is threaded through
as an explicit function argument `sq`, so every definition stays executable.
-/

namespace Churn

/-- A cell of an input table: a numeric value, a string value, or a missing
value (pandas `NaN`). -/
inductive Cell where
  | num (x : Rat)
  | str (s : String)
  | na
deriving DecidableEq, Repr

/-- A row is an association list from column names to cells. -/
abbrev Row := List (String × Cell)

/-- Reading a cell from a row; a column not stored in the row reads as missing. -/
def cellAt (r : Row) (c : String) : Cell := (List.lookup c r).getD Cell.na

/-- A pandas data frame: the column list plus the rows. -/
structure DataFrame where
  cols : List String
  rows : List Row
deriving DecidableEq, Repr

/-- Reading one column of the frame (`df[c]`). -/
def DataFrame.colVals (df : DataFrame) (c : String) : List Cell :=
  df.rows.map (fun r => cellAt r c)

/-- The configured numeric feature columns (`self.numeric_features`). -/
def numeric_features : List String := ["tenure", "MonthlyCharges", "TotalCharges"]

/-- The configured categorical feature columns (`self.categorical_features`). -/
def categorical_features : List String := ["InternetService", "Contract", "PaymentMethod"]

/-- The configured binary feature columns (`self.binary_features`). -/
def binary_features : List String :=
  ["gender", "Partner", "Dependents", "PhoneService", "PaperlessBilling", "Churn"]

/-- The error outcomes of the pipeline: the two validation failures, the raw
key error pandas raises for an absent column label, the column-set mismatch
and unseen-category errors of the fitted transformer, and the not-fitted
guard of `save_model` / `predict`. -/
inductive PipelineError where
  | missingColumns (cols : List String)
  | insufficientData
  | keyError (col : String)
  | columnMismatch (col : String)
  | unseenCategory (col : String) (v : String)
  | notFitted
deriving DecidableEq, Repr

/-- The `map({'Yes': 1, 'No': 0})` step on the label column: any other value
becomes `NaN` (`none`). -/
def churnMap : Cell → Option Rat
  | Cell.str "Yes" => some 1
  | Cell.str "No" => some 0
  | _ => none

/-- pandas `Series.mean()`: arithmetic mean of the non-`NaN` entries, `NaN`
(`none`) when there are none. -/
def nanMean (vs : List (Option Rat)) : Option Rat :=
  let xs := vs.filterMap id
  if xs.length = 0 then none else some (xs.sum / (xs.length : Rat))

/-- The churn rate `_validate_data` computes from the label column. -/
def churnRate (df : DataFrame) : Option Rat :=
  nanMean ((df.colVals "Churn").map churnMap)

/-- The columns `_validate_data` requires: the numeric features plus the
categorical features (the source filters `Churn` out of the latter, a filter
that never removes anything, kept here as written). -/
def required_columns : List String :=
  numeric_features ++ categorical_features.filter (fun c => !(c == "Churn"))

/-- The imbalance-warning flag `_validate_data` computes: set when a churn
rate exists and lies under 5% or over 95% (a `NaN` rate compares false on
both bounds, as in numpy). -/
def warnFlag (df : DataFrame) : Bool :=
  if df.cols.contains "Churn" then
    match churnRate df with
    | some r => decide (r < 1/20) || decide (19/20 < r)
    | none => false
  else false

/-- `_validate_data`: missing required columns and a row count below 100 are
errors; a churn rate under 5% or over 95% only logs a warning (the returned
flag records whether the warning was emitted). -/
def validate_data (df : DataFrame) : Except PipelineError Bool :=
  let missing := required_columns.filter (fun c => !(df.cols.contains c))
  if missing = [] then
    if df.rows.length < 100 then Except.error PipelineError.insufficientData
    else Except.ok (warnFlag df)
  else Except.error (PipelineError.missingColumns missing)

/-- Insertion step of the sort on rationals used for the median. -/
def insertRat (x : Rat) : List Rat → List Rat
  | [] => [x]
  | y :: ys => if x ≤ y then x :: y :: ys else y :: insertRat x ys

/-- Insertion sort on rationals. -/
def sortRat : List Rat → List Rat
  | [] => []
  | x :: xs => insertRat x (sortRat xs)

/-- numpy-style median: the middle element of the sorted values, or the mean
of the two middle elements; 0 for an empty list (the imputer never sees one
on the inputs the pipeline validates). -/
def median (l : List Rat) : Rat :=
  let s := sortRat l
  let n := s.length
  if n = 0 then 0
  else if n % 2 = 1 then s.getD (n / 2) 0
  else (s.getD (n / 2 - 1) 0 + s.getD (n / 2) 0) / 2

/-- Arithmetic mean, 0 on the empty list. -/
def meanL (l : List Rat) : Rat := if l.length = 0 then 0 else l.sum / (l.length : Rat)

/-- Population variance (numpy `var` with `ddof = 0`). -/
def varL (l : List Rat) : Rat := meanL (l.map (fun x => (x - meanL l) ^ 2))

/-- The numeric reading of a cell; non-numeric and missing cells are `NaN`. -/
def cellNum : Cell → Option Rat
  | Cell.num x => some x
  | _ => none

/-- The value a cell shows to the categorical encoder after
`SimpleImputer(strategy='constant', fill_value='missing')`. -/
def cellCat : Cell → String
  | Cell.str s => s
  | Cell.num x => reprStr x
  | Cell.na => "missing"

/-- The string a raw cell renders to in the `f"{feature}_{val}"` pass of
`_create_feature_names` (no imputation there: `NaN` renders as `nan`). -/
def cellRaw : Cell → String
  | Cell.str s => s
  | Cell.num x => reprStr x
  | Cell.na => "nan"

/-- Insertion step of the sort on strings used for the encoder vocabulary. -/
def insertStr (x : String) : List String → List String
  | [] => [x]
  | y :: ys => if x ≤ y then x :: y :: ys else y :: insertStr x ys

/-- Insertion sort on strings (the order numpy `unique` returns categories in). -/
def sortStr : List String → List String
  | [] => []
  | x :: xs => insertStr x (sortStr xs)

/-- Fitted state of the numeric pipeline on one column. -/
structure NumFit where
  med : Rat
  mean : Rat
  scale : Rat
deriving DecidableEq, Repr

/-- Fitted state of the categorical pipeline on one column: the sorted
vocabulary; its head is the category the drop-first encoding omits. -/
structure CatFit where
  categories : List String
deriving DecidableEq, Repr

/-- Fit of `SimpleImputer(strategy='median')` then `StandardScaler` on one
column: `sq` stands for the square root, so `scale = sq variance`, mapped to
1 when the variance is 0 exactly as sklearn maps zero scales to 1. -/
def fitNum (sq : Rat → Rat) (cells : List Cell) : NumFit :=
  let raw := cells.filterMap cellNum
  let m := median raw
  let imputed := cells.map (fun c => (cellNum c).getD m)
  let v := varL imputed
  { med := m, mean := meanL imputed, scale := if v = 0 then 1 else sq v }

/-- Fit of `SimpleImputer(strategy='constant', fill_value='missing')` then
`OneHotEncoder(drop='first')` on one column: the vocabulary is the sorted
list of distinct imputed values. -/
def fitCat (cells : List Cell) : CatFit :=
  ⟨sortStr ((cells.map cellCat).dedup)⟩

/-- Error-propagating map over a list, stopping at the first failure. -/
def exceptMap (f : α → Except ε β) : List α → Except ε (List β)
  | [] => Except.ok []
  | x :: xs =>
    match f x with
    | Except.error e => Except.error e
    | Except.ok y =>
      match exceptMap f xs with
      | Except.error e => Except.error e
      | Except.ok ys => Except.ok (y :: ys)

/-- The fitted state of the configured `ColumnTransformer`: the numeric fits
in configured order, then the categorical fits in configured order. -/
structure FittedPre where
  numF : List (String × NumFit)
  catF : List (String × CatFit)
deriving DecidableEq, Repr

/-- `ColumnTransformer(...).fit`: fits the numeric pipeline on the configured
numeric columns and the categorical pipeline on the configured categorical
columns; a listed column absent from the frame is an error; every remaining
column is dropped (the constructor's default `remainder='drop'`). -/
def fitPre (sq : Rat → Rat) (X : DataFrame) : Except PipelineError FittedPre :=
  match exceptMap (fun c =>
      if X.cols.contains c then Except.ok (c, fitNum sq (X.colVals c))
      else Except.error (PipelineError.columnMismatch c)) numeric_features with
  | Except.error e => Except.error e
  | Except.ok nf =>
    match exceptMap (fun c =>
        if X.cols.contains c then Except.ok (c, fitCat (X.colVals c))
        else Except.error (PipelineError.columnMismatch c))
        (categorical_features.filter (fun c => !(c == "Churn"))) with
    | Except.error e => Except.error e
    | Except.ok cf => Except.ok ⟨nf, cf⟩

/-- Transform of one row under a fitted state: imputed and standardized
numeric values first, then the drop-first indicator block of each categorical
column; a category value outside the fitted vocabulary is an error (the
encoder's default `handle_unknown='error'`). -/
def transformRow (pre : FittedPre) (r : Row) : Except PipelineError (List Rat) :=
  let nums := pre.numF.map
    (fun p => (((cellNum (cellAt r p.1)).getD p.2.med) - p.2.mean) / p.2.scale)
  match exceptMap (fun p =>
      let v := cellCat (cellAt r p.1)
      if p.2.categories.contains v then
        Except.ok ((p.2.categories.drop 1).map (fun cat => if v == cat then (1 : Rat) else 0))
      else Except.error (PipelineError.unseenCategory p.1 v)) pre.catF with
  | Except.error e => Except.error e
  | Except.ok blocks => Except.ok (nums ++ blocks.flatten)

/-- `ColumnTransformer.transform`: fails when a fitted column is missing from
the frame, otherwise transforms every row. -/
def transformPre (pre : FittedPre) (X : DataFrame) : Except PipelineError (List (List Rat)) :=
  match exceptMap (fun c =>
      if X.cols.contains c then Except.ok () else Except.error (PipelineError.columnMismatch c))
      (pre.numF.map Prod.fst ++ pre.catF.map Prod.fst) with
  | Except.error e => Except.error e
  | Except.ok _ => exceptMap (transformRow pre) X.rows

/-- pandas `DataFrame.drop(labels, axis=1)`: fails with a key error on the
first label not present, otherwise removes the listed columns. -/
def dropCols (df : DataFrame) (cs : List String) : Except PipelineError DataFrame :=
  match exceptMap (fun c =>
      if df.cols.contains c then Except.ok () else Except.error (PipelineError.keyError c)) cs with
  | Except.error e => Except.error e
  | Except.ok _ =>
    Except.ok ⟨df.cols.filter (fun c => !(cs.contains c)),
      df.rows.map (fun r => r.filter (fun p => !(cs.contains p.1)))⟩

/-- `_create_feature_names`: the numeric names, then for each categorical
column present the raw distinct values in first-appearance order minus the
first one, then the binary columns other than `Churn` that are present. -/
def create_feature_names (df : DataFrame) : List String :=
  let categorical_cols :=
    (categorical_features.filter (fun f => df.cols.contains f)).flatMap
      (fun f => (((df.colVals f).dedup).drop 1).map (fun v => f ++ "_" ++ cellRaw v))
  let binary_cols := binary_features.filter (fun f => !(f == "Churn") && df.cols.contains f)
  numeric_features ++ categorical_cols ++ binary_cols

/-- Everything `preprocess_data` produces: the fitted transformer it stores in
`self.preprocessor`, the feature names it stores in `self.feature_names`, the
transformed matrix and the mapped label vector it returns. -/
structure PreOut where
  pre : FittedPre
  names : List String
  X : List (List Rat)
  y : List (Option Rat)
deriving DecidableEq, Repr

/-- `preprocess_data`: validate, drop the label (and the identifier column
when present), map the label, record the feature names, then fit and apply
the column transformer. -/
def preprocess_data (sq : Rat → Rat) (df : DataFrame) : Except PipelineError PreOut :=
  match validate_data df with
  | Except.error e => Except.error e
  | Except.ok _warned =>
    match dropCols df
        (if df.cols.contains "CustomerID" then ["Churn", "CustomerID"] else ["Churn"]) with
    | Except.error e => Except.error e
    | Except.ok Xdf =>
      let y := (df.colVals "Churn").map churnMap
      let names := create_feature_names df
      match fitPre sq Xdf with
      | Except.error e => Except.error e
      | Except.ok pre =>
        match transformPre pre Xdf with
        | Except.error e => Except.error e
        | Except.ok mat => Except.ok ⟨pre, names, mat, y⟩

/-- The in-memory state of a `ChurnPredictionSystem` object: the construction
seed, the version tag built at construction time, and the three fields the
pipeline mutates. `M` is the type of the external classifier's fitted model. -/
structure ChurnSystem (M : Type) where
  random_state : Nat
  model_version : String
  preprocessor : Option FittedPre
  model : Option M
  feature_names : Option (List String)
deriving DecidableEq, Repr

/-- `ChurnPredictionSystem.__init__`: stores the seed and version tag, all
fitted state starts empty. -/
def initSystem (M : Type) (random_state : Nat) (version : String) : ChurnSystem M :=
  ⟨random_state, version, none, none, none⟩

/-- The external capabilities the pipeline consumes, each a deterministic
function of the seed and its data arguments: SMOTE resampling, the
random-forest fit (its other hyperparameters are the fixed literals of
`train_model`), cross-validation scoring, the classifier's label and
positive-class-probability surfaces, the ROC-AUC score and the
classification-report rendering. -/
structure MLExt (M : Type) where
  smote : Nat → List (List Rat) → List (Option Rat) → List (List Rat) × List (Option Rat)
  rfFit : Nat → List (List Rat) → List (Option Rat) → M
  cvScores : Nat → List (List Rat) → List (Option Rat) → List Rat
  predictL : M → List (List Rat) → List Rat
  predictP : M → List (List Rat) → List Rat
  aucOf : List (Option Rat) → List Rat → Rat
  reportOf : List (Option Rat) → List Rat → String

/-- `train_model`: SMOTE-resample with the system seed, build the forest with
the system seed, log the cross-validation scores, fit, store and return the
model (the returned triple also exposes the logged scores). -/
def train_model {M : Type} (ext : MLExt M) (s : ChurnSystem M)
    (X : List (List Rat)) (y : List (Option Rat)) : ChurnSystem M × M × List Rat :=
  let res := ext.smote s.random_state X y
  let m := ext.rfFit s.random_state res.1 res.2
  let cv := ext.cvScores s.random_state res.1 res.2
  ({s with model := some m}, m, cv)

/-- One entry of the confusion matrix: rows with actual label `a` predicted
as `b`. -/
def countPred (y : List (Option Rat)) (yp : List Rat) (a b : Rat) : Nat :=
  ((y.zip yp).filter (fun q => decide (q.1 = some a) && decide (q.2 = b))).length

/-- What `evaluate_model` returns: the classification report, the 2×2
confusion matrix (rows = actual 0/1, columns = predicted 0/1) and the
ROC-AUC score computed from the probability surface. -/
structure EvalOut where
  reportStr : String
  confusion : List (List Nat)
  rocAuc : Rat
deriving DecidableEq, Repr

/-- `evaluate_model`: predictions and probability scores of the stored model
on the test matrix, reduced to the three metrics (plot rendering is an
external collaborator and is not modelled). -/
def evaluate_model {M : Type} (ext : MLExt M) (s : ChurnSystem M)
    (X : List (List Rat)) (y : List (Option Rat)) : Except PipelineError EvalOut :=
  match s.model with
  | none => Except.error PipelineError.notFitted
  | some m =>
    let yp := ext.predictL m X
    let pp := ext.predictP m X
    Except.ok ⟨ext.reportOf y yp,
      [[countPred y yp 0 0, countPred y yp 0 1], [countPred y yp 1 0, countPred y yp 1 1]],
      ext.aucOf y pp⟩

/-- One complete pipeline run as the claims describe it: preprocess (validate,
fit, transform), resample + train, evaluate; it returns the trained model, its
predictions on the transformed matrix, and the evaluation metrics. -/
def pipeline_run {M : Type} (ext : MLExt M) (sq : Rat → Rat) (s : ChurnSystem M)
    (df : DataFrame) : Except PipelineError (M × List Rat × EvalOut) :=
  match preprocess_data sq df with
  | Except.error e => Except.error e
  | Except.ok out =>
    let s1 := {s with preprocessor := some out.pre, feature_names := some out.names}
    let t := train_model ext s1 out.X out.y
    match evaluate_model ext t.1 out.X out.y with
    | Except.error e => Except.error e
    | Except.ok ev => Except.ok (t.2.1, ext.predictL t.2.1 out.X, ev)

/-- The record `save_model` hands to `joblib.dump`. Each outer `Option` says
whether the key is present in the record at all (`load_model` raises a key
error exactly on an absent key); the inner `Option`s carry the stored values,
which the source can legitimately store as Python `None`. -/
structure ModelInfo (M : Type) where
  model : Option (Option M)
  preprocessor : Option (Option FittedPre)
  feature_names : Option (Option (List String))
  version : Option String
  timestamp : Option String
deriving DecidableEq, Repr

/-- `save_model`: refuses while the model or preprocessor is still `None`,
otherwise produces the record with all five keys present (`now` stands for
the formatted current time). -/
def save_model {M : Type} (now : String) (s : ChurnSystem M) :
    Except PipelineError (ModelInfo M) :=
  if s.model.isNone || s.preprocessor.isNone then Except.error PipelineError.notFitted
  else Except.ok ⟨some s.model, some s.preprocessor, some s.feature_names,
    some s.model_version, some now⟩

/-- `load_model`: the source assigns `model`, `preprocessor`, `feature_names`
in that order and then logs the record's `version`; each lookup of an absent
key raises. The error value carries the key that failed together with the
in-memory state at that point, which keeps the assignments already performed
(the successful path never touches `model_version`, as in the source). -/
def load_model {M : Type} (s : ChurnSystem M) (info : ModelInfo M) :
    Except (String × ChurnSystem M) (ChurnSystem M) :=
  match info.model with
  | none => Except.error ("model", s)
  | some mv =>
    let s1 := {s with model := mv}
    match info.preprocessor with
    | none => Except.error ("preprocessor", s1)
    | some pv =>
      let s2 := {s1 with preprocessor := pv}
      match info.feature_names with
      | none => Except.error ("feature_names", s2)
      | some fv =>
        let s3 := {s2 with feature_names := fv}
        match info.version with
        | none => Except.error ("version", s3)
        | some _v => Except.ok s3

/-- `predict`: requires a model and a preprocessor, transforms the frame with
the stored fit state and returns the positive-class probabilities. -/
def predict {M : Type} (ext : MLExt M) (s : ChurnSystem M) (X : DataFrame) :
    Except PipelineError (List Rat) :=
  match s.model, s.preprocessor with
  | some m, some pre =>
    match transformPre pre X with
    | Except.error e => Except.error e
    | Except.ok Xp => Except.ok (ext.predictP m Xp)
  | _, _ => Except.error PipelineError.notFitted

/-! ### Concrete example data used by the closed theorems -/

/-- One synthetic customer row; `churn` is the label value of the row. -/
def exRowC (i : Nat) (churn : String) : Row :=
  [("tenure", Cell.num 1), ("MonthlyCharges", Cell.num 2), ("TotalCharges", Cell.num 3),
   ("InternetService", Cell.str (if i % 2 = 0 then "DSL" else "Fiber")),
   ("Contract", Cell.str (if i % 2 = 0 then "Month" else "Year")),
   ("PaymentMethod", Cell.str (if i % 2 = 0 then "Card" else "Check")),
   ("gender", Cell.num ((i % 2 : Nat) : Rat)), ("Partner", Cell.num 1),
   ("Dependents", Cell.num 0), ("PhoneService", Cell.num 1),
   ("PaperlessBilling", Cell.num 0),
   ("Churn", Cell.str churn)]

/-- The column list of the example tables. -/
def exCols : List String :=
  ["tenure", "MonthlyCharges", "TotalCharges", "InternetService", "Contract",
   "PaymentMethod", "gender", "Partner", "Dependents", "PhoneService",
   "PaperlessBilling", "Churn"]

/-- A 100-row example table with a balanced label. -/
def exDf : DataFrame :=
  ⟨exCols, (List.range 100).map (fun i => exRowC i (if i % 2 = 0 then "Yes" else "No"))⟩

/-- The 99-row prefix of the example table. -/
def exDf99 : DataFrame :=
  ⟨exCols, (List.range 99).map (fun i => exRowC i (if i % 2 = 0 then "Yes" else "No"))⟩

/-- A 100-row example table with a 2% positive-label rate. -/
def exDfImb : DataFrame :=
  ⟨exCols, (List.range 100).map (fun i => exRowC i (if i < 2 then "Yes" else "No"))⟩

/-- The example table with its label column removed. -/
def exDfNoChurn : DataFrame :=
  ⟨exCols.filter (fun c => !(c == "Churn")),
   (List.range 100).map (fun i =>
     (exRowC i "Yes").filter (fun p => !(p.1 == "Churn")))⟩

/-- An inference row whose `Contract` value was never seen at fit time. -/
def unseenRow : Row :=
  [("tenure", Cell.num 1), ("MonthlyCharges", Cell.num 2), ("TotalCharges", Cell.num 3),
   ("InternetService", Cell.str "DSL"), ("Contract", Cell.str "TwoYear"),
   ("PaymentMethod", Cell.str "Card"), ("gender", Cell.num 1), ("Partner", Cell.num 1),
   ("Dependents", Cell.num 0), ("PhoneService", Cell.num 1), ("PaperlessBilling", Cell.num 0)]

/-- A one-row inference frame carrying the unseen `Contract` value. -/
def unseenDf : DataFrame := ⟨exCols.filter (fun c => !(c == "Churn")), [unseenRow]⟩

/-- The transformer state the pipeline actually fits on `exDf` (the fallback
branch is never taken: `preprocess_data` succeeds on `exDf`). -/
def fittedEx : FittedPre :=
  match preprocess_data (fun x => x) exDf with
  | Except.ok out => out.pre
  | Except.error _ => ⟨[], []⟩

/-- A trivial instantiation of the external capabilities, with `Nat` as the
model type (the fitted model remembers the seed). -/
def extW : MLExt Nat :=
  ⟨fun _ X y => (X, y),
   fun seed _ _ => seed,
   fun _ _ _ => [],
   fun _ X => X.map (fun _ => 0),
   fun _ X => X.map (fun _ => 1/2),
   fun _ _ => 1/2,
   fun _ _ => "report"⟩

/-- A freshly constructed example system. -/
def sysW : ChurnSystem Nat := initSystem Nat 42 "20240101_000000"

/-- A system identical to `sysW` except for its construction-time version tag. -/
def sysW2 : ChurnSystem Nat := ⟨42, "20240102_090000", some fittedEx, some 7, none⟩

/-- An example system in the trained state. -/
def sysTrained : ChurnSystem Nat := ⟨42, "20240101_000000", some fittedEx, some 5, some ["f"]⟩

end Churn

deriving instance DecidableEq for Except

namespace Churn

/-! ### Helper lemmas -/

theorem exceptMap_ok_mem {α β ε : Type _} {f : α → Except ε β} :
    ∀ {l : List α} {ys : List β}, exceptMap f l = Except.ok ys →
      ∀ x ∈ l, ∃ y, f x = Except.ok y := by
  intro l
  induction l with
  | nil => intro ys _ x hx; cases hx
  | cons a as ih =>
    intro ys h x hx
    simp only [exceptMap] at h
    cases hfa : f a with
    | error e => rw [hfa] at h; cases h
    | ok y =>
      rw [hfa] at h
      cases hms : exceptMap f as with
      | error e => rw [hms] at h; cases h
      | ok ys2 =>
        rw [hms] at h
        cases hx with
        | head => exact ⟨y, hfa⟩
        | tail _ hx2 => exact ih hms x hx2

theorem exceptMap_mem_ok {α β ε : Type _} {f : α → Except ε β} :
    ∀ {l : List α} {ys : List β}, exceptMap f l = Except.ok ys →
      ∀ y ∈ ys, ∃ x ∈ l, f x = Except.ok y := by
  intro l
  induction l with
  | nil =>
    intro ys h y hy
    simp only [exceptMap] at h
    cases h
    cases hy
  | cons a as ih =>
    intro ys h y hy
    simp only [exceptMap] at h
    cases hfa : f a with
    | error e => rw [hfa] at h; cases h
    | ok y0 =>
      rw [hfa] at h
      cases hms : exceptMap f as with
      | error e => rw [hms] at h; cases h
      | ok ys2 =>
        rw [hms] at h
        cases h
        cases hy with
        | head => exact ⟨a, List.mem_cons_self a as, hfa⟩
        | tail _ hy2 =>
          obtain ⟨x, hx, hfx⟩ := ih hms y hy2
          exact ⟨x, List.mem_cons_of_mem a hx, hfx⟩

theorem exceptMap_isOk {α β ε : Type _} {f : α → Except ε β} :
    ∀ {l : List α}, (∀ x ∈ l, ∃ y, f x = Except.ok y) →
      ∃ ys, exceptMap f l = Except.ok ys := by
  intro l
  induction l with
  | nil => intro _; exact ⟨[], rfl⟩
  | cons a as ih =>
    intro h
    obtain ⟨y, hy⟩ := h a (List.mem_cons_self a as)
    obtain ⟨ys, hys⟩ := ih (fun x hx => h x (List.mem_cons_of_mem a hx))
    exact ⟨y :: ys, by simp only [exceptMap, hy, hys]⟩

theorem mem_insertStr {a x : String} :
    ∀ {l : List String}, a ∈ insertStr x l ↔ a = x ∨ a ∈ l := by
  intro l
  induction l with
  | nil => simp [insertStr]
  | cons y ys ih =>
    simp only [insertStr]
    split
    · simp
    · simp only [List.mem_cons, ih]
      tauto

theorem mem_sortStr {a : String} : ∀ {l : List String}, a ∈ sortStr l ↔ a ∈ l := by
  intro l
  induction l with
  | nil => simp [sortStr]
  | cons x xs ih => simp [sortStr, mem_insertStr, ih]

theorem fitCat_contains {cells : List Cell} {c : Cell} (h : c ∈ cells) :
    (fitCat cells).categories.contains (cellCat c) = true := by
  have hm : cellCat c ∈ (fitCat cells).categories := by
    simp only [fitCat]
    rw [mem_sortStr]
    exact List.mem_dedup.mpr (List.mem_map_of_mem cellCat h)
  simpa using hm

theorem validate_ok {df : DataFrame} (hcols : ∀ c ∈ required_columns, c ∈ df.cols)
    (hrows : ¬ df.rows.length < 100) :
    validate_data df = Except.ok (warnFlag df) := by
  have hm : required_columns.filter (fun c => !(df.cols.contains c)) = [] := by
    refine List.filter_eq_nil_iff.mpr (fun c hc => ?_)
    simpa using hcols c hc
  simp only [validate_data, hm, if_neg hrows]
  simp

theorem fitPre_ok (sq : Rat → Rat) {X : DataFrame}
    (hcols : ∀ c ∈ required_columns, c ∈ X.cols) :
    ∃ pre, fitPre sq X = Except.ok pre := by
  have hnum : ∀ c ∈ numeric_features, c ∈ required_columns := by decide
  have hcat : ∀ c ∈ categorical_features.filter (fun c => !(c == "Churn")),
      c ∈ required_columns := by decide
  obtain ⟨nf, hnf⟩ := exceptMap_isOk (f := fun c =>
      if X.cols.contains c then Except.ok (c, fitNum sq (X.colVals c))
      else Except.error (PipelineError.columnMismatch c)) (l := numeric_features)
    (fun c hc => by
      have h1 : c ∈ X.cols := hcols c (hnum c hc)
      exact ⟨(c, fitNum sq (X.colVals c)), by simp [h1]⟩)
  obtain ⟨cf, hcf⟩ := exceptMap_isOk (f := fun c =>
      if X.cols.contains c then Except.ok (c, fitCat (X.colVals c))
      else Except.error (PipelineError.columnMismatch c))
    (l := categorical_features.filter (fun c => !(c == "Churn")))
    (fun c hc => by
      have h1 : c ∈ X.cols := hcols c (hcat c hc)
      exact ⟨(c, fitCat (X.colVals c)), by simp [h1]⟩)
  exact ⟨⟨nf, cf⟩, by simp only [fitPre, hnf, hcf]⟩

theorem fitPre_numF {sq : Rat → Rat} {X : DataFrame} {pre : FittedPre}
    (h : fitPre sq X = Except.ok pre) :
    ∀ p ∈ pre.numF, p.1 ∈ X.cols := by
  intro p hp
  simp only [fitPre] at h
  cases hnf : exceptMap (fun c =>
      if X.cols.contains c then Except.ok (c, fitNum sq (X.colVals c))
      else Except.error (PipelineError.columnMismatch c)) numeric_features with
  | error e => rw [hnf] at h; cases h
  | ok nf =>
    rw [hnf] at h
    cases hcf : exceptMap (fun c =>
        if X.cols.contains c then Except.ok (c, fitCat (X.colVals c))
        else Except.error (PipelineError.columnMismatch c))
        (categorical_features.filter (fun c => !(c == "Churn"))) with
    | error e => rw [hcf] at h; cases h
    | ok cf =>
      rw [hcf] at h
      cases h
      obtain ⟨c, _, hfc⟩ := exceptMap_mem_ok hnf p hp
      by_cases hin : X.cols.contains c = true
      · rw [if_pos hin] at hfc
        cases hfc
        simpa using hin
      · rw [if_neg hin] at hfc
        cases hfc

theorem fitPre_catF {sq : Rat → Rat} {X : DataFrame} {pre : FittedPre}
    (h : fitPre sq X = Except.ok pre) :
    ∀ p ∈ pre.catF, p.1 ∈ X.cols ∧ p.2 = fitCat (X.colVals p.1) := by
  intro p hp
  simp only [fitPre] at h
  cases hnf : exceptMap (fun c =>
      if X.cols.contains c then Except.ok (c, fitNum sq (X.colVals c))
      else Except.error (PipelineError.columnMismatch c)) numeric_features with
  | error e => rw [hnf] at h; cases h
  | ok nf =>
    rw [hnf] at h
    cases hcf : exceptMap (fun c =>
        if X.cols.contains c then Except.ok (c, fitCat (X.colVals c))
        else Except.error (PipelineError.columnMismatch c))
        (categorical_features.filter (fun c => !(c == "Churn"))) with
    | error e => rw [hcf] at h; cases h
    | ok cf =>
      rw [hcf] at h
      cases h
      obtain ⟨c, _, hfc⟩ := exceptMap_mem_ok hcf p hp
      by_cases hin : X.cols.contains c = true
      · rw [if_pos hin] at hfc
        cases hfc
        exact ⟨by simpa using hin, rfl⟩
      · rw [if_neg hin] at hfc
        cases hfc

theorem transformRow_ok {pre : FittedPre} {r : Row}
    (h : ∀ p ∈ pre.catF, p.2.categories.contains (cellCat (cellAt r p.1)) = true) :
    ∃ v, transformRow pre r = Except.ok v := by
  obtain ⟨blocks, hb⟩ := exceptMap_isOk (f := fun p =>
      let v := cellCat (cellAt r p.1)
      if p.2.categories.contains v then
        Except.ok ((p.2.categories.drop 1).map (fun cat => if v == cat then (1 : Rat) else 0))
      else Except.error (PipelineError.unseenCategory p.1 v)) (l := pre.catF)
    (fun p hp => ⟨(p.2.categories.drop 1).map
        (fun cat => if cellCat (cellAt r p.1) == cat then (1 : Rat) else 0),
      by
        have hm2 : cellCat (cellAt r p.1) ∈ p.2.categories := by simpa using h p hp
        simp [hm2]⟩)
  exact ⟨pre.numF.map
      (fun p => (((cellNum (cellAt r p.1)).getD p.2.med) - p.2.mean) / p.2.scale)
      ++ blocks.flatten,
    by simp only [transformRow, hb]⟩

theorem transformPre_ok {pre : FittedPre} {X : DataFrame}
    (hn : ∀ p ∈ pre.numF, p.1 ∈ X.cols) (hc : ∀ p ∈ pre.catF, p.1 ∈ X.cols)
    (hfit : ∀ r ∈ X.rows, ∀ p ∈ pre.catF,
      p.2.categories.contains (cellCat (cellAt r p.1)) = true) :
    ∃ m, transformPre pre X = Except.ok m := by
  obtain ⟨us, hus⟩ := exceptMap_isOk (f := fun c =>
      if X.cols.contains c then Except.ok () else Except.error (PipelineError.columnMismatch c))
    (l := pre.numF.map Prod.fst ++ pre.catF.map Prod.fst)
    (fun c hcmem => by
      have hmem : c ∈ X.cols := by
        rcases List.mem_append.mp hcmem with hl | hr
        · obtain ⟨p, hp, rfl⟩ := List.mem_map.mp hl
          exact hn p hp
        · obtain ⟨p, hp, rfl⟩ := List.mem_map.mp hr
          exact hc p hp
      exact ⟨(), by simp [hmem]⟩)
  obtain ⟨m, hm⟩ := exceptMap_isOk (f := transformRow pre) (l := X.rows)
    (fun r hr => transformRow_ok (fun p hp => hfit r hr p hp))
  exact ⟨m, by simp only [transformPre, hus, hm]⟩

theorem transformPre_ok_mem {pre : FittedPre} {X : DataFrame} {m : List (List Rat)}
    (h : transformPre pre X = Except.ok m) :
    ∀ r ∈ X.rows, ∀ p ∈ pre.catF,
      p.2.categories.contains (cellCat (cellAt r p.1)) = true := by
  intro r hr p hp
  simp only [transformPre] at h
  cases hus : exceptMap (fun c =>
      if X.cols.contains c then Except.ok () else Except.error (PipelineError.columnMismatch c))
      (pre.numF.map Prod.fst ++ pre.catF.map Prod.fst) with
  | error e => rw [hus] at h; cases h
  | ok us =>
    rw [hus] at h
    obtain ⟨v, hv⟩ := exceptMap_ok_mem h r hr
    simp only [transformRow] at hv
    cases hb : exceptMap (fun p =>
        let v := cellCat (cellAt r p.1)
        if p.2.categories.contains v then
          Except.ok ((p.2.categories.drop 1).map (fun cat => if v == cat then (1 : Rat) else 0))
        else Except.error (PipelineError.unseenCategory p.1 v)) pre.catF with
    | error e => rw [hb] at hv; cases hv
    | ok blocks =>
      obtain ⟨y, hy⟩ := exceptMap_ok_mem hb p hp
      by_cases hin : p.2.categories.contains (cellCat (cellAt r p.1)) = true
      · exact hin
      · simp only [if_neg hin] at hy
        cases hy

theorem preprocess_ok (sq : Rat → Rat) {df : DataFrame}
    (hcols : ∀ c ∈ required_columns, c ∈ df.cols)
    (hch : "Churn" ∈ df.cols)
    (hrows : ¬ df.rows.length < 100) :
    ∃ out, preprocess_data sq df = Except.ok out := by
  set cs : List String :=
    if df.cols.contains "CustomerID" then ["Churn", "CustomerID"] else ["Churn"] with hcs
  have hsub : ∀ c ∈ cs, c ∈ (["Churn", "CustomerID"] : List String) := by
    intro c hc
    rw [hcs] at hc
    split at hc
    · exact hc
    · simp only [List.mem_singleton] at hc
      simp [hc]
  have hpres : ∀ c ∈ cs, c ∈ df.cols := by
    intro c hc
    rw [hcs] at hc
    split at hc
    case isTrue hcid =>
      simp at hc
      rcases hc with h2 | h2 <;> subst h2
      · exact hch
      · simpa using hcid
    case isFalse =>
      simp only [List.mem_singleton] at hc
      subst hc
      exact hch
  obtain ⟨us, hus⟩ := exceptMap_isOk (f := fun c =>
      if df.cols.contains c then Except.ok () else Except.error (PipelineError.keyError c))
    (l := cs) (fun c hc => ⟨(), by simp [hpres c hc]⟩)
  have hdrop : dropCols df cs =
      Except.ok ⟨df.cols.filter (fun c => !(cs.contains c)),
        df.rows.map (fun r => r.filter (fun p => !(cs.contains p.1)))⟩ := by
    simp only [dropCols, hus]
  set Xdf : DataFrame :=
    ⟨df.cols.filter (fun c => !(cs.contains c)),
     df.rows.map (fun r => r.filter (fun p => !(cs.contains p.1)))⟩ with hXdf
  have hreq : ∀ c ∈ required_columns, c ∈ Xdf.cols := by
    intro c hc
    have hne : ∀ c ∈ required_columns, c ∉ (["Churn", "CustomerID"] : List String) := by decide
    have hnotin : c ∉ cs := fun h3 => hne c hc (hsub c h3)
    exact List.mem_filter.mpr ⟨hcols c hc, by simpa using hnotin⟩
  obtain ⟨pre, hpre⟩ := fitPre_ok sq hreq
  obtain ⟨m, hm⟩ := transformPre_ok (fitPre_numF hpre)
    (fun p hp => (fitPre_catF hpre p hp).1)
    (fun r hr p hp => by
      rw [(fitPre_catF hpre p hp).2]
      exact fitCat_contains (List.mem_map_of_mem (fun r => cellAt r p.1) hr))
  refine ⟨⟨pre, create_feature_names df, m, (df.colVals "Churn").map churnMap⟩, ?_⟩
  simp only [preprocess_data, validate_ok hcols hrows, ← hcs, hdrop, ← hXdf, hpre, hm]

/-! ### Claim theorems -/

set_option maxRecDepth 10000

/-- Claim C6: for a table with every required column present, validation
fails with the insufficient-data error whenever it has fewer than 100 rows
(so in particular at exactly 99), and succeeds at exactly 100 rows. -/
theorem validate_row_count_boundary (df : DataFrame)
    (hcols : ∀ c ∈ required_columns, c ∈ df.cols) :
    (df.rows.length < 100 → validate_data df = Except.error PipelineError.insufficientData) ∧
    (df.rows.length = 100 → ∃ w, validate_data df = Except.ok w) := by
  have hm : required_columns.filter (fun c => !(df.cols.contains c)) = [] := by
    refine List.filter_eq_nil_iff.mpr (fun c hc => ?_)
    simpa using hcols c hc
  constructor
  · intro hlen
    simp only [validate_data, hm, if_pos hlen]
    simp
  · intro hlen
    exact ⟨warnFlag df, validate_ok hcols (by omega)⟩

/-- Claim C6 witness: the 99-row example table fails with the
insufficient-data error while the 100-row example table validates. -/
theorem validate_row_count_boundary_witness :
    validate_data exDf99 = Except.error PipelineError.insufficientData ∧
    ∃ w, validate_data exDf = Except.ok w :=
  ⟨(validate_row_count_boundary exDf99 (by decide)).1 (by decide),
   (validate_row_count_boundary exDf (by decide)).2 (by decide)⟩

/-- Claim C8: validation fails with the missing-columns error exactly when
some configured numeric or categorical column is absent from the table. -/
theorem missing_columns_iff (df : DataFrame) :
    (∃ cs, validate_data df = Except.error (PipelineError.missingColumns cs)) ↔
      ∃ c ∈ required_columns, c ∉ df.cols := by
  by_cases hm : required_columns.filter (fun c => !(df.cols.contains c)) = []
  · have hall : ∀ c ∈ required_columns, c ∈ df.cols := by
      intro c hc
      by_contra hno
      have : c ∈ required_columns.filter (fun c => !(df.cols.contains c)) :=
        List.mem_filter.mpr ⟨hc, by simpa using hno⟩
      rw [hm] at this
      cases this
    have hshape : validate_data df = Except.error PipelineError.insufficientData ∨
        validate_data df = Except.ok (warnFlag df) := by
      by_cases hlen : df.rows.length < 100
      · left
        simp only [validate_data, hm, if_pos hlen]
        simp
      · right
        exact validate_ok hall hlen
    constructor
    · rintro ⟨cs, hcs⟩
      rcases hshape with hval | hval <;> rw [hval] at hcs <;> cases hcs
    · rintro ⟨c, hc, hno⟩
      exact absurd (hall c hc) hno
  · constructor
    · rintro -
      obtain ⟨c, hc⟩ := List.exists_mem_of_ne_nil _ hm
      obtain ⟨hcr, hcb⟩ := List.mem_filter.mp hc
      exact ⟨c, hcr, by simpa using hcb⟩
    · rintro -
      refine ⟨required_columns.filter (fun c => !(df.cols.contains c)), ?_⟩
      simp only [validate_data, if_neg hm]

/-- Claim C7: a table with every required column, the label column and at
least 100 rows whose churn rate lies under 5% (or over 95%) is not rejected:
validation succeeds with the imbalance warning flagged, and the complete
pipeline run still goes through and returns a trained model. -/
theorem imbalance_warning_nonfatal (M : Type) (ext : MLExt M) (sq : Rat → Rat)
    (s : ChurnSystem M) (df : DataFrame) (r : Rat)
    (hcols : ∀ c ∈ required_columns, c ∈ df.cols)
    (hch : "Churn" ∈ df.cols)
    (hrows : ¬ df.rows.length < 100)
    (hrate : churnRate df = some r)
    (him : r < 1/20 ∨ 19/20 < r) :
    validate_data df = Except.ok true ∧
    ∃ out, pipeline_run ext sq s df = Except.ok out := by
  have hwarn : warnFlag df = true := by
    have hcont : df.cols.contains "Churn" = true := by simpa using hch
    simp only [warnFlag, hcont, hrate]
    simp only [if_true]
    rcases him with h1 | h1 <;> simp [h1]
    exact Or.inl (by rw [← one_div]; exact h1)
  constructor
  · rw [validate_ok hcols hrows, hwarn]
  · obtain ⟨out, hout⟩ := preprocess_ok sq hcols hch hrows
    have hok : (pipeline_run ext sq s df).isOk = true := by
      simp only [pipeline_run, hout]
      rfl
    cases hres : pipeline_run ext sq s df with
    | error e => rw [hres] at hok; cases hok
    | ok o => exact ⟨o, rfl⟩

/-- Claim C7 witness: the example table with a 2% churn rate validates with
the warning set and the full pipeline run returns a model. -/
theorem imbalance_warning_nonfatal_witness :
    validate_data exDfImb = Except.ok true ∧
    ∃ out, pipeline_run extW (fun x => x) sysW exDfImb = Except.ok out :=
  imbalance_warning_nonfatal Nat extW (fun x => x) sysW exDfImb (1/50)
    (by decide) (by decide) (by decide)
    (by with_unfolding_all decide) (Or.inl (by with_unfolding_all decide))

/-- Claim C10: validation never checks the label column, so a table with all
configured feature columns and at least 100 rows but no `Churn` column passes
validation (without any warning), and `preprocess_data` then fails with the
raw key error for `Churn` — not with the structured missing-columns error. -/
theorem validate_ignores_label_column (sq : Rat → Rat) (df : DataFrame)
    (hcols : ∀ c ∈ required_columns, c ∈ df.cols)
    (hrows : ¬ df.rows.length < 100)
    (hch : "Churn" ∉ df.cols) :
    validate_data df = Except.ok false ∧
    preprocess_data sq df = Except.error (PipelineError.keyError "Churn") := by
  have hcont : df.cols.contains "Churn" = false := by simpa using hch
  have hwarn : warnFlag df = false := by simp [warnFlag, hch]
  have hval : validate_data df = Except.ok false := by rw [validate_ok hcols hrows, hwarn]
  refine ⟨hval, ?_⟩
  have hkey : exceptMap (fun c =>
      if df.cols.contains c then Except.ok () else Except.error (PipelineError.keyError c))
      (if df.cols.contains "CustomerID" then ["Churn", "CustomerID"] else ["Churn"]) =
      Except.error (PipelineError.keyError "Churn") := by
    split <;> simp [exceptMap, hch]
  simp only [preprocess_data, hval, dropCols, hkey]

/-- Claim C10 witness: the example table without its label column validates
and then fails preprocessing with the key error for `Churn`. -/
theorem validate_ignores_label_column_witness :
    validate_data exDfNoChurn = Except.ok false ∧
    preprocess_data (fun x => x) exDfNoChurn =
      Except.error (PipelineError.keyError "Churn") :=
  validate_ignores_label_column (fun x => x) exDfNoChurn
    (by decide) (by decide) (by decide)

/-- Claim C1 (code-bug evidence): on the 100-row example table that carries
all five binary feature columns, `preprocess_data` succeeds and every row of
the output matrix has width 6 = 3 numeric + 3 indicator columns, even though
the five binary columns are present (second conjunct): the configured column
transformer drops them (default remainder behaviour) instead of passing them
through after the indicator block as the claim states. -/
theorem binary_columns_dropped :
    (preprocess_data (fun x => x) exDf).map (fun o => o.X.map List.length) =
      Except.ok (List.replicate 100 6) ∧
    binary_features.filter (fun f => !(f == "Churn") && exDf.cols.contains f) =
      ["gender", "Partner", "Dependents", "PhoneService", "PaperlessBilling"] :=
  ⟨by with_unfolding_all decide, by decide⟩

/-- Claim C2 (code-bug evidence): on the same example table the stored
feature-name list has 11 entries (3 numeric + 3 indicator + 5 binary names)
while the transformed matrix rows have only 6 columns, so the name list is
not positionally aligned with the matrix. -/
theorem feature_names_outrun_matrix :
    (create_feature_names exDf).length = 11 ∧
    (preprocess_data (fun x => x) exDf).map (fun o => (o.X.headD []).length) =
      Except.ok 6 :=
  ⟨by decide, by with_unfolding_all decide⟩

/-- Claim C3 counterexample: with the transformer state actually fitted on
the example table (where the fitted vocabulary of `Contract` is
`["Month", "Year"]`), `predict` on a frame whose `Contract` value is the
unseen `"TwoYear"` fails with the unseen-category error instead of encoding
the row with all-zero indicators. -/
theorem unseen_category_fatal_cex :
    predict extW ⟨42, "v", some fittedEx, some 0, none⟩ unseenDf =
      Except.error (PipelineError.unseenCategory "Contract" "TwoYear") := by
  with_unfolding_all decide

/-- Claim C3 amended: for every fitted transformer, transform as invoked by
`predict` raises an error — it does not fall back to all-zero indicators —
whenever some row of the input holds, in a fitted categorical column, a
value outside the fit-time vocabulary. -/
theorem unseen_category_raises (M : Type) (ext : MLExt M) (s : ChurnSystem M)
    (m : M) (pre : FittedPre) (X : DataFrame) (r : Row) (c : String) (f : CatFit)
    (hm : s.model = some m) (hp : s.preprocessor = some pre)
    (hr : r ∈ X.rows) (hcf : (c, f) ∈ pre.catF)
    (hv : ¬ (cellCat (cellAt r c)) ∈ f.categories) :
    ∃ e, predict ext s X = Except.error e := by
  cases htr : transformPre pre X with
  | error e =>
    refine ⟨e, ?_⟩
    simp only [predict, hm, hp, htr]
  | ok mat =>
    exfalso
    have hcont := transformPre_ok_mem htr r hr (c, f) hcf
    exact hv (by simpa using hcont)

/-- Claim C3 amended witness: the fitted example transformer applied through
`predict` to the frame with the unseen `Contract` value fails. -/
theorem unseen_category_raises_witness :
    ∃ e, predict extW ⟨42, "v9", some fittedEx, some 0, none⟩ unseenDf =
      Except.error e :=
  unseen_category_raises Nat extW ⟨42, "v9", some fittedEx, some 0, none⟩
    0 fittedEx unseenDf unseenRow "Contract" ⟨["Month", "Year"]⟩
    rfl rfl (by decide) (by with_unfolding_all decide) (by decide)

/-- Claim C4: saving a trained system and loading the produced record into
any system yields a system whose `predict` output on any probe frame equals
the original system's output on that frame. -/
theorem save_load_roundtrip (M : Type) (ext : MLExt M) (s s0 : ChurnSystem M)
    (now : String) (X : DataFrame) (m : M) (pre : FittedPre)
    (hm : s.model = some m) (hp : s.preprocessor = some pre) :
    ∃ info s2, save_model now s = Except.ok info ∧ load_model s0 info = Except.ok s2 ∧
      predict ext s2 X = predict ext s X := by
  cases s with
  | mk rs ver spre smod sfn =>
    dsimp only at hm hp
    subst hm
    subst hp
    exact ⟨⟨some (some m), some (some pre), some sfn, some ver, some now⟩,
      {s0 with model := some m, preprocessor := some pre, feature_names := sfn},
      rfl, rfl, rfl⟩

/-- Claim C4 witness: the trained example system round-trips through save
and load with identical predictions on the example table. -/
theorem save_load_roundtrip_witness :
    ∃ info s2, save_model "t0" sysTrained = Except.ok info ∧
      load_model sysW info = Except.ok s2 ∧
      predict extW s2 exDf = predict extW sysTrained exDf :=
  save_load_roundtrip Nat extW sysTrained sysW "t0" exDf 5 fittedEx rfl rfl

/-- Claim C5: the pipeline run is deterministic — two systems built with the
same seed (whatever their other construction-time state, e.g. the version
tag) produce identical trained models, predictions and evaluation metrics on
the same input data with the same external capabilities. -/
theorem pipeline_run_deterministic (M : Type) (ext : MLExt M) (sq : Rat → Rat)
    (s1 s2 : ChurnSystem M) (df : DataFrame)
    (h : s1.random_state = s2.random_state) :
    pipeline_run ext sq s1 df = pipeline_run ext sq s2 df := by
  cases hpre : preprocess_data sq df with
  | error e => simp only [pipeline_run, hpre]
  | ok out =>
    simp only [pipeline_run, hpre, train_model, evaluate_model]
    rw [h]

/-- Claim C5 witness: the fresh example system and a system with a different
version tag but the same seed produce identical full-pipeline results. -/
theorem pipeline_run_deterministic_witness :
    pipeline_run extW (fun x => x) sysW exDf = pipeline_run extW (fun x => x) sysW2 exDf :=
  pipeline_run_deterministic Nat extW (fun x => x) sysW sysW2 exDf rfl

/-- A record lacking the `preprocessor` key but carrying a `model` value. -/
def cexInfo : ModelInfo Nat :=
  ⟨some (some 99), none, some (some ["g"]), some "v9", some "t9"⟩

/-- Claim C9 counterexample: loading a record that lacks the `preprocessor`
key fails, but the failure state has the `model` field already overwritten
(from `some 5` to `some 99`): the load is not atomic. -/
theorem load_not_atomic_cex :
    load_model sysTrained cexInfo =
      Except.error ("preprocessor", {sysTrained with model := some 99}) ∧
    ({sysTrained with model := some (99 : Nat)}).model ≠ sysTrained.model := by
  exact ⟨rfl, by decide⟩

/-- Claim C9 amended: loading fails with a key-lookup error exactly when one
of the four required keys (model, preprocessor, feature names, version) is
absent from the record, but the load is not atomic: assignments made before
the failing lookup persist — a record with no `model` key leaves the state
unchanged, while a record with a `model` key but no `preprocessor` key leaves
the model field already replaced. -/
theorem load_model_failure_behavior (M : Type) (s : ChurnSystem M) (info : ModelInfo M) :
    ((∃ e, load_model s info = Except.error e) ↔
      (info.model = none ∨ info.preprocessor = none ∨ info.feature_names = none ∨
        info.version = none)) ∧
    (info.model = none → load_model s info = Except.error ("model", s)) ∧
    (∀ mv, info.model = some mv → info.preprocessor = none →
      load_model s info = Except.error ("preprocessor", {s with model := mv})) := by
  obtain ⟨im, ip, ifn, iv, it⟩ := info
  cases im <;> cases ip <;> cases ifn <;> cases iv <;> simp [load_model]

/-- An artifact record with every required key absent. -/
def cexInfoNoModel : ModelInfo Nat := ⟨none, none, none, none, some "t"⟩

/-- Claim C9 amended witness: loading a record with no `model` key fails
with the key error for `model` and leaves the state unchanged. -/
theorem load_model_failure_behavior_witness :
    load_model sysW cexInfoNoModel = Except.error ("model", sysW) :=
  (load_model_failure_behavior Nat sysW cexInfoNoModel).2.1 rfl

end Churn
